import Mathlib

/-!
Verification development for the zenoh-python binding core
(`src/src.bck/session.rs`, `src/src.bck/types.rs`, `src/src/queryable.rs`).

The Rust/pyo3 code is shallowly embedded: pyclass structs become Lean
structures, fallible pyo3 methods return `Except PyErr`, and methods that can
hit a Rust `unwrap`/`panic` return `PyOutcome` which has an explicit
`panicked` outcome.  External collaborators (the zenoh engine, serde_json,
Rust std parsers) enter only through explicit parameters or through small
functions modelled from their documented behaviour, marked as such.
-/

namespace ZenohPy

/-- Python-level errors raised by the binding (`PyErr` in pyo3).
`zerror` is the binding's own `ZError` class, built by `to_pyerr` from an
engine error or raised directly with a message. -/
inductive PyErr where
  | zerror (msg : String)
  | valueError (msg : String)
  | typeError (msg : String)
  | overflowError (msg : String)
deriving DecidableEq, Repr

/-- Outcome of a Python-visible call: normal return, raised Python error, or a
Rust panic (`unwrap` on an `Err`), which pyo3 surfaces as an uncatchable
`PanicException` rather than a typed error. -/
inductive PyOutcome (α : Type) where
  | ok (a : α)
  | err (e : PyErr)
  | panicked
deriving DecidableEq, Repr

/-- `zenoh::prelude::KeyExpr`: a numeric scope (0 = no numeric mapping) plus a
string suffix (`src/src.bck/types.rs`, the `ZKeyExpr` alias). -/
structure ZKeyExpr where
  scope : Nat
  suffix : String
deriving DecidableEq, Repr

/-- `as_id_and_suffix()` on a zenoh `KeyExpr`: the pair of the numeric scope
and the suffix string. -/
def ZKeyExpr.as_id_and_suffix (k : ZKeyExpr) : Nat × String :=
  (k.scope, k.suffix)

/-- Opaque stand-in for a Rust `f64`; carried by its printed representation,
since no claim computes with floating point. -/
structure F64 where
  val : String
deriving DecidableEq, Repr

/-- `zenoh::prelude::KnownEncoding`: the encoding-tag discriminants.  The
variants are those of the zenoh 0.6 crate; `decode_value` in
`src/src.bck/types.rs` dispatches on them with a catch-all arm. -/
inductive ZKnownEncoding where
  | Empty
  | AppOctetStream
  | AppCustom
  | TextPlain
  | AppProperties
  | AppJson
  | AppSql
  | AppInteger
  | AppFloat
  | AppXml
  | AppXhtmlXml
  | AppXWwwFormUrlencoded
  | TextJson
  | TextHtml
  | TextXml
  | TextCss
  | TextCsv
  | TextJavascript
  | ImageJpeg
  | ImagePng
  | ImageGif
deriving DecidableEq, Repr

/-- The display name of each known encoding tag (the zenoh crate's `Display`
strings, which `decode_value` interpolates into its error message). -/
def ZKnownEncoding.display : ZKnownEncoding → String
  | .Empty => ""
  | .AppOctetStream => "application/octet-stream"
  | .AppCustom => "application/custom"
  | .TextPlain => "text/plain"
  | .AppProperties => "application/properties"
  | .AppJson => "application/json"
  | .AppSql => "application/sql"
  | .AppInteger => "application/integer"
  | .AppFloat => "application/float"
  | .AppXml => "application/xml"
  | .AppXhtmlXml => "application/xhtml+xml"
  | .AppXWwwFormUrlencoded => "application/x-www-form-urlencoded"
  | .TextJson => "text/json"
  | .TextHtml => "text/html"
  | .TextXml => "text/xml"
  | .TextCss => "text/css"
  | .TextCsv => "text/csv"
  | .TextJavascript => "text/javascript"
  | .ImageJpeg => "image/jpeg"
  | .ImagePng => "image/png"
  | .ImageGif => "image/gif"

/-- `zenoh::prelude::Encoding`: a known tag plus a free-form suffix
(`Encoding::prefix()` returns the tag). -/
structure ZEncoding where
  prefixTag : ZKnownEncoding
  suffix : String
deriving DecidableEq, Repr

/-- The `Display` of a zenoh `Encoding`: the tag's display name followed by
the suffix. -/
def ZEncoding.display (e : ZEncoding) : String :=
  e.prefixTag.display ++ e.suffix

/-- The list of known encodings, used when converting a string to an
`Encoding` (modelled from the zenoh crate's `From<&str> for Encoding`). -/
def knownEncodings : List ZKnownEncoding :=
  [.AppOctetStream, .AppCustom, .TextPlain, .AppProperties, .AppJson, .AppSql,
   .AppInteger, .AppFloat, .AppXml, .AppXhtmlXml, .AppXWwwFormUrlencoded,
   .TextJson, .TextHtml, .TextXml, .TextCss, .TextCsv, .TextJavascript,
   .ImageJpeg, .ImagePng, .ImageGif]

/-- Modelled from the zenoh crate (external collaborator): converting a string
into an `Encoding` matches a known display name used as a literal start of the
string, keeping the rest as suffix, and otherwise yields an `Empty`-tagged
encoding whose suffix is the whole string. -/
def ZEncoding.fromString (s : String) : ZEncoding :=
  match knownEncodings.find? (fun p => p.display.isPrefixOf s) with
  | some p => ⟨p, s.drop p.display.length⟩
  | none => ⟨.Empty, s⟩

/-- `zenoh::prelude::Value`: a byte payload plus an encoding. -/
structure ZValue where
  payload : List Nat
  encoding : ZEncoding
deriving DecidableEq, Repr

/-- UTF-8 bytes of a string (Rust `str::as_bytes` / `String::into_bytes`). -/
def utf8Bytes (s : String) : List Nat :=
  s.toUTF8.toList.map (fun b => b.toNat)

/-- The zenoh `Properties` display form: `key=value` pairs joined by `;`
(payload of a `Value` built from a Python dict). -/
def propsToString (d : List (String × String)) : String :=
  String.intercalate ";" (d.map fun kv => kv.1 ++ "=" ++ kv.2)

/-- A Python object at the boundary, as the closed tagged union of the runtime
type names the converters in `src/src.bck/types.rs` test with
`obj.get_type().name()`. -/
inductive PyObj where
  | vKeyExpr (k : ZKeyExpr)
  | vValue (v : ZValue)
  | vBytes (b : List Nat)
  | vStr (s : String)
  | vDict (d : List (String × String))
  | vInt (i : Int)
  | vFloat (f : F64)
  | vEncoding (e : ZEncoding)
  | vTuple (items : List PyObj)
  | vOther (tyName : String)

/-- `obj.get_type().name()` for the modelled Python objects. -/
def PyObj.typeName : PyObj → String
  | .vKeyExpr _ => "KeyExpr"
  | .vValue _ => "Value"
  | .vBytes _ => "bytes"
  | .vStr _ => "str"
  | .vDict _ => "dict"
  | .vInt _ => "int"
  | .vFloat _ => "float"
  | .vEncoding _ => "Encoding"
  | .vTuple _ => "tuple"
  | .vOther t => t

/-- `zkey_expr_of_pyany` (`src/src.bck/types.rs`): dispatch on the runtime
type name; ints are extracted as `u64` (a Python int out of `u64` range makes
`extract` fail with an `OverflowError`); a 2-tuple `(int, str)` becomes a
scoped expression with suffix; anything else is a `ValueError` naming the
source type.  (In the Rust code the tuple-arm error interpolates the tuple's
`Debug` form; here it is rendered as the type name.) -/
def zkey_expr_of_pyany : PyObj → Except PyErr ZKeyExpr
  | .vKeyExpr k => .ok k
  | .vInt i =>
    if 0 ≤ i ∧ i < 2 ^ 64 then .ok ⟨i.toNat, ""⟩
    else .error (.overflowError "out of range integral type conversion attempted")
  | .vStr s => .ok ⟨0, s⟩
  | .vTuple items =>
    match items with
    | [.vInt i, .vStr suf] =>
      if 0 ≤ i ∧ i < 2 ^ 64 then .ok ⟨i.toNat, suf⟩
      else .error (.overflowError "out of range integral type conversion attempted")
    | _ => .error (.valueError "Cannot convert type \x27tuple\x27 to a zenoh-net KeyExpr")
  | o => .error (.valueError ("Cannot convert type \x27" ++ o.typeName ++ "\x27 to a zenoh-net KeyExpr"))

/-- `zvalue_of_pyany` (`src/src.bck/types.rs`): dispatch on the runtime type
name, setting payload and encoding together; ints are extracted as `i64`;
a 2-tuple of payload (`bytes` or `str`) and encoding (`str` or `Encoding`)
uses the explicit encoding; anything else is a `ValueError` naming the source
type.  (As above, the tuple-arm error is rendered with the type name.) -/
def zvalue_of_pyany : PyObj → Except PyErr ZValue
  | .vValue v => .ok v
  | .vBytes b => .ok ⟨b, ⟨.AppOctetStream, ""⟩⟩
  | .vStr s => .ok ⟨utf8Bytes s, ⟨.TextPlain, ""⟩⟩
  | .vDict d => .ok ⟨utf8Bytes (propsToString d), ⟨.AppProperties, ""⟩⟩
  | .vInt i =>
    if -(2 ^ 63) ≤ i ∧ i < 2 ^ 63 then .ok ⟨utf8Bytes (toString i), ⟨.AppInteger, ""⟩⟩
    else .error (.overflowError "out of range integral type conversion attempted")
  | .vFloat f => .ok ⟨utf8Bytes f.val, ⟨.AppFloat, ""⟩⟩
  | .vTuple items =>
    match items with
    | [.vBytes b, .vStr es] => .ok ⟨b, ZEncoding.fromString es⟩
    | [.vBytes b, .vEncoding en] => .ok ⟨b, en⟩
    | [.vStr s, .vStr es] => .ok ⟨utf8Bytes s, ZEncoding.fromString es⟩
    | [.vStr s, .vEncoding en] => .ok ⟨utf8Bytes s, en⟩
    | _ => .error (.valueError "Cannot convert type \x27tuple\x27 to a zenoh Value")
  | o => .error (.valueError ("Cannot convert type \x27" ++ o.typeName ++ "\x27 to a zenoh Value"))

/-- `serde_json::Number` (external collaborator, modelled from its documented
representation): an unsigned 64-bit integer, a negative 64-bit integer, or a
double.  `posInt` carries a `u64` (values below `2 ^ 64`); `negInt` carries a
negative `i64`. -/
inductive JNum where
  | posInt (n : Nat)
  | negInt (i : Int)
  | flt (f : F64)
deriving DecidableEq, Repr

/-- `Number::as_u64`: only the unsigned representation converts. -/
def JNum.asU64 : JNum → Option Nat
  | .posInt n => some n
  | .negInt _ => none
  | .flt _ => none

/-- `Number::as_i64`: an unsigned value converts when it fits in `i64`; a
negative value always converts; a double never does. -/
def JNum.asI64 : JNum → Option Int
  | .posInt n => if n ≤ 2 ^ 63 - 1 then some (Int.ofNat n) else none
  | .negInt i => some i
  | .flt _ => none

/-- `Number::as_f64`: total — every stored number has a double approximation
(this is what makes the source's `unreachable!()` arm truly unreachable). -/
def JNum.asF64 : JNum → F64
  | .posInt n => ⟨toString n⟩
  | .negInt i => ⟨toString i⟩
  | .flt f => f

/-- A parsed JSON document (`serde_json::Value`). -/
inductive Json where
  | null
  | bool (b : Bool)
  | num (n : JNum)
  | str (s : String)
  | arr (xs : List Json)
  | obj (m : List (String × Json))

/-- A decoded Python object as produced by `decode_value` and
`IntoPyAlt` (`src/src.bck/types.rs`). -/
inductive PyDecoded where
  | bytes (b : List Nat)
  | str (s : String)
  | dict (d : List (String × String))
  | int (i : Int)
  | float (f : F64)
  | none
  | bool (b : Bool)
  | list (xs : List PyDecoded)
  | obj (m : List (String × PyDecoded))

/-- `IntoPyAlt for serde_json::Number` (`src/src.bck/types.rs` lines
619-632): try `as_u64`, then `as_i64`, then `as_f64`, in that order; the
final `unreachable!()` is never hit because `as_f64` is total. -/
def jnumIntoPy (n : JNum) : PyDecoded :=
  match n.asU64 with
  | some v => .int (Int.ofNat v)
  | none =>
    match n.asI64 with
    | some v => .int v
    | none => .float n.asF64

mutual

/-- `IntoPyAlt for serde_json::Value` (`src/src.bck/types.rs` lines 599-618):
recursive conversion of a JSON document into Python objects. -/
def jsonIntoPy : Json → PyDecoded
  | .null => .none
  | .bool b => .bool b
  | .num n => jnumIntoPy n
  | .str s => .str s
  | .arr xs => .list (jsonArrIntoPy xs)
  | .obj m => .obj (jsonObjIntoPy m)

/-- Conversion of a JSON array's elements. -/
def jsonArrIntoPy : List Json → List PyDecoded
  | [] => []
  | x :: xs => jsonIntoPy x :: jsonArrIntoPy xs

/-- Conversion of a JSON object's fields. -/
def jsonObjIntoPy : List (String × Json) → List (String × PyDecoded)
  | [] => []
  | (k, v) :: rest => (k, jsonIntoPy v) :: jsonObjIntoPy rest

end

/-- The external parsers `decode_value` delegates to
(`String::from_utf8_lossy`, `Properties::try_from`,
`serde_json::Value::try_from`, `i64::try_from`, `f64::try_from`): kept
abstract as parameters, since they live in the zenoh / std crates. -/
structure Codecs where
  utf8Lossy : List Nat → String
  parseProps : List Nat → Except String (List (String × String))
  parseJson : List Nat → Except String Json
  parseI64 : List Nat → Except String Int
  parseF64 : List Nat → Except String F64

/-- `decode_value` (`src/src.bck/types.rs` lines 634-659): dispatch on the
encoding tag; the catch-all arm fails with a `TypeError` carrying the
encoding's display form.  The two apostrophes of the source message are
written with `\x27` escapes. -/
def decode_value (c : Codecs) (v : ZValue) : PyOutcome PyDecoded :=
  match v.encoding.prefixTag with
  | .Empty | .AppOctetStream => .ok (.bytes v.payload)
  | .TextPlain => .ok (.str (c.utf8Lossy v.payload))
  | .AppProperties =>
    match c.parseProps v.payload with
    | .ok d => .ok (.dict d)
    | .error e => .err (.typeError e)
  | .AppJson | .TextJson =>
    match c.parseJson v.payload with
    | .ok j => .ok (jsonIntoPy j)
    | .error e => .err (.typeError e)
  | .AppInteger =>
    match c.parseI64 v.payload with
    | .ok i => .ok (.int i)
    | .error e => .err (.typeError e)
  | .AppFloat =>
    match c.parseF64 v.payload with
    | .ok f => .ok (.float f)
    | .error e => .err (.typeError e)
  | _ =>
    .err (.typeError
      ("Don\x27t know how to decode Value\x27s payload with encoding: " ++ v.encoding.display))

/-- The encoding tags for which `decode_value` has a decode rule (the
non-catch-all arms of its match). -/
def decodableTag : ZKnownEncoding → Bool
  | .Empty | .AppOctetStream | .TextPlain | .AppProperties
  | .AppJson | .TextJson | .AppInteger | .AppFloat => true
  | _ => false

/-- A zenoh id (opaque peer identifier), carried by its printed form. -/
structure ZenohIdData where
  raw : String
deriving DecidableEq, Repr

/-- A zenoh timestamp (opaque here; only threaded through `Sample::new`). -/
structure Timestamp where
  t : Nat
deriving DecidableEq, Repr

/-- `zenoh::prelude::SourceInfo`: four independently optional fields.  An
absent source information is the value with all four fields `none`, not an
absent struct. -/
structure ZSourceInfo where
  source_id : Option ZenohIdData
  source_sn : Option Nat
  first_router_id : Option ZenohIdData
  first_router_sn : Option Nat
deriving DecidableEq, Repr

/-- `SourceInfo::empty()`: all fields unset. -/
def ZSourceInfo.empty : ZSourceInfo :=
  ⟨none, none, none, none⟩

/-- The kind of a sample. -/
inductive SampleKind where
  | Put
  | Delete
deriving DecidableEq, Repr

/-- `zenoh::prelude::Sample` (the engine-side sample wrapped by the `Sample`
pyclass).  `source_info` is a plain field of option-valued components. -/
structure ZSample where
  key_expr : ZKeyExpr
  value : ZValue
  kind : SampleKind
  timestamp : Option Timestamp
  source_info : ZSourceInfo
deriving DecidableEq, Repr

/-- The `Sample` pyclass (`src/src.bck/types.rs`): wraps a zenoh sample. -/
structure Sample where
  s : ZSample
deriving DecidableEq, Repr

/-- `Sample::new` (`src/src.bck/types.rs` lines 871-886): both boundary
conversions are `unwrap`ped, so a non-convertible key expression or value
panics instead of raising a typed error.  The optional kwargs are modelled as
already-extracted options.  `zenoh::prelude::Sample::new` gives kind `Put`,
no timestamp and empty source info; the kwargs overwrite the last two. -/
def Sample.new (key_expr value : PyObj) (timestamp : Option Timestamp)
    (source_info : Option ZSourceInfo) : PyOutcome Sample :=
  match zkey_expr_of_pyany key_expr with
  | .error _ => .panicked
  | .ok k =>
    match zvalue_of_pyany value with
    | .error _ => .panicked
    | .ok v =>
      .ok ⟨{ key_expr := k, value := v, kind := .Put,
             timestamp := timestamp,
             source_info := source_info.getD ZSourceInfo.empty }⟩

/-- The `source_info` getter of `Sample` (`src/src.bck/types.rs` lines
915-922): always wraps the sample's source-info field in `Some`, even when
that field carries no information. -/
def Sample.source_info (smp : Sample) : Option ZSourceInfo :=
  some smp.s.source_info

/-- The `Error` pyclass (`src/src.bck/types.rs`): wraps a zenoh value. -/
structure Error where
  v : ZValue
deriving DecidableEq, Repr

/-- `Error::new` (`src/src.bck/types.rs` lines 996-1000): the value
conversion is `unwrap`ped, so a non-convertible value panics. -/
def Error.new (value : PyObj) : PyOutcome Error :=
  match zvalue_of_pyany value with
  | .error _ => .panicked
  | .ok v => .ok ⟨v⟩

/-- The `KeyExpr` pyclass: wraps a zenoh key expression. -/
structure KeyExpr where
  inner : ZKeyExpr
deriving DecidableEq, Repr

/-- `KeyExpr::new` (`src/src.bck/types.rs` lines 324-330): the conversion
error is propagated with `?`. -/
def KeyExpr.new (key_expr : PyObj) : Except PyErr KeyExpr :=
  match zkey_expr_of_pyany key_expr with
  | .error e => .error e
  | .ok k => .ok ⟨k⟩

/-- `KeyExpr::intersect` (`src/src.bck/types.rs` lines 350-360): both
conversions are `unwrap`ped (panic on failure); then the resolved scopes are
compared, `false` on mismatch without looking at the suffixes, and only on
matching scopes is the wildcard suffix matcher consulted.  The matcher
(`zenoh::utils::key_expr::intersect`, external) is a parameter `m`. -/
def KeyExpr.intersect (m : String → String → Bool) (s1 s2 : PyObj) : PyOutcome Bool :=
  match zkey_expr_of_pyany s1 with
  | .error _ => .panicked
  | .ok k1 =>
    match zkey_expr_of_pyany s2 with
    | .error _ => .panicked
    | .ok k2 =>
      if k1.as_id_and_suffix.1 ≠ k2.as_id_and_suffix.1 then .ok false
      else .ok (m k1.as_id_and_suffix.2 k2.as_id_and_suffix.2)

/-- `zenoh::prelude::Selector`: a key selector plus the raw value-selector
string. -/
structure ZSelector where
  key_selector : ZKeyExpr
  value_selector : String
deriving DecidableEq, Repr

/-- Modelled from the zenoh crate (external collaborator):
`Selector::from(&str)` splits at the first `?`; the key part becomes an
unscoped key expression, everything from the `?` onward (the `?` included) is
the raw value-selector string. -/
def ZSelector.fromString (s : String) : ZSelector :=
  match s.splitOn "?" with
  | [] => ⟨⟨0, s⟩, ""⟩
  | [k] => ⟨⟨0, k⟩, ""⟩
  | k :: rest => ⟨⟨0, k⟩, "?" ++ String.intercalate "?" rest⟩

/-- The engine interactions the binding can submit, recorded as a trace so
that "fails before any engine interaction" is expressible. -/
inductive EngineCall where
  | id
  | info
  | config
  | put (k : ZKeyExpr) (v : ZValue)
  | delete (k : ZKeyExpr)
  | declareExpr (k : ZKeyExpr)
  | undeclareExpr (rid : Nat)
  | declarePublication (k : ZKeyExpr)
  | undeclarePublication (k : ZKeyExpr)
  | subscribe (k : ZKeyExpr)
  | declareQueryable (k : ZKeyExpr)
  | get (sel : ZSelector)
  | keyExprToExpr (k : ZKeyExpr)
  | sessionClose
  | subscriberPull
  | subscriberClose
  | queryableClose
deriving DecidableEq, Repr

/-- The responses of the external `MessagingEngine` collaborator, one per
operation the binding can submit (`Except String` failures are what
`to_pyerr` maps into `ZError`s). -/
structure Engine where
  idStr : String
  infoMap : List (String × String)
  putRes : Except String Unit
  deleteRes : Except String Unit
  declareExprRes : Except String Nat
  undeclareExprRes : Except String Unit
  declarePubRes : Except String Unit
  undeclarePubRes : Except String Unit
  subscribeRes : Except String Unit
  queryableRes : Except String Unit
  getRes : Except String (List Nat)
  keyExprToExprRes : Except String String
  closeRes : Except String Unit
  pullRes : Except String Unit
  subCloseRes : Except String Unit
  qCloseRes : Except String Unit

/-- A fixed engine whose every response succeeds, for concrete witnesses. -/
def engDefault : Engine :=
  { idStr := "sid", infoMap := [], putRes := .ok (), deleteRes := .ok (),
    declareExprRes := .ok 7, undeclareExprRes := .ok (), declarePubRes := .ok (),
    undeclarePubRes := .ok (), subscribeRes := .ok (), queryableRes := .ok (),
    getRes := .ok [], keyExprToExprRes := .ok "expr", closeRes := .ok (),
    pullRes := .ok (), subCloseRes := .ok (), qCloseRes := .ok () }

/-- The `Session` pyclass (`src/src.bck/session.rs`): an option slot over the
shared (`Arc`) engine session handle. -/
structure Session where
  s : Option Unit
deriving DecidableEq, Repr

/-- The shared-ownership state of the one underlying engine session:
`strong` counts the live `Arc` clones, `engineClosed` records whether the
engine's `close` has been invoked. -/
structure SharedState where
  strong : Nat
  engineClosed : Bool
deriving DecidableEq, Repr

/-- The error `try_ref` / `try_take` raise on an emptied session slot. -/
def closedSessionErr : PyErr :=
  .zerror "zenoh session was closed"

/-- `Session::try_ref` (`src/src.bck/session.rs` lines 551-556). -/
def Session.try_ref (self : Session) : Except PyErr Unit :=
  match self.s with
  | some u => .ok u
  | none => .error closedSessionErr

/-- `Session::try_take` (`src/src.bck/session.rs` lines 558-563): empties the
slot on success. -/
def Session.try_take (self : Session) : Except PyErr Unit × Session :=
  match self.s with
  | some u => (.ok u, ⟨none⟩)
  | none => (.error closedSessionErr, self)

/-- The `Subscriber` pyclass (`src/src.bck/types.rs`): option slot over the
engine subscriber handle. -/
structure Subscriber where
  inner : Option Unit
deriving DecidableEq, Repr

/-- The `Queryable` pyclass (`src/src.bck/types.rs`): option slot over the
engine queryable handle. -/
structure Queryable where
  inner : Option Unit
deriving DecidableEq, Repr

/-- `Session::id` (`src/src.bck/session.rs` lines 45-48). -/
def Session.id (self : Session) (eng : Engine) : Except PyErr String × List EngineCall :=
  match self.try_ref with
  | .error e => (.error e, [])
  | .ok _ => (.ok eng.idStr, [.id])

/-- `Session::info` (`src/src.bck/session.rs` lines 72-82). -/
def Session.info (self : Session) (eng : Engine) :
    Except PyErr (List (String × String)) × List EngineCall :=
  match self.try_ref with
  | .error e => (.error e, [])
  | .ok _ => (.ok eng.infoMap, [.info])

/-- `Session::config` (`src/src.bck/session.rs` lines 112-116); the returned
`ConfigNotifier` is opaque here. -/
def Session.config (self : Session) : Except PyErr Unit × List EngineCall :=
  match self.try_ref with
  | .error e => (.error e, [])
  | .ok _ => (.ok (), [.config])

/-- `Session::put` (`src/src.bck/session.rs` lines 149-172): `try_ref`, then
both boundary conversions (each propagated with `?`), then the engine
submission; kwargs are omitted (their extraction cannot reach the engine
either).  Engine failure is mapped by `to_pyerr` into a `ZError`. -/
def Session.put (self : Session) (eng : Engine) (key_expr value : PyObj) :
    Except PyErr Unit × List EngineCall :=
  match self.try_ref with
  | .error e => (.error e, [])
  | .ok _ =>
    match zkey_expr_of_pyany key_expr with
    | .error e => (.error e, [])
    | .ok k =>
      match zvalue_of_pyany value with
      | .error e => (.error e, [])
      | .ok v => (eng.putRes.mapError PyErr.zerror, [.put k v])

/-- `Session::delete` (`src/src.bck/session.rs` lines 199-215). -/
def Session.delete (self : Session) (eng : Engine) (key_expr : PyObj) :
    Except PyErr Unit × List EngineCall :=
  match self.try_ref with
  | .error e => (.error e, [])
  | .ok _ =>
    match zkey_expr_of_pyany key_expr with
    | .error e => (.error e, [])
    | .ok k => (eng.deleteRes.mapError PyErr.zerror, [.delete k])

/-- `Session::declare_expr` (`src/src.bck/session.rs` lines 234-238). -/
def Session.declare_expr (self : Session) (eng : Engine) (key_expr : PyObj) :
    Except PyErr Nat × List EngineCall :=
  match self.try_ref with
  | .error e => (.error e, [])
  | .ok _ =>
    match zkey_expr_of_pyany key_expr with
    | .error e => (.error e, [])
    | .ok k => (eng.declareExprRes.mapError PyErr.zerror, [.declareExpr k])

/-- `Session::undeclare_expr` (`src/src.bck/session.rs` lines 254-257). -/
def Session.undeclare_expr (self : Session) (eng : Engine) (rid : Nat) :
    Except PyErr Unit × List EngineCall :=
  match self.try_ref with
  | .error e => (.error e, [])
  | .ok _ => (eng.undeclareExprRes.mapError PyErr.zerror, [.undeclareExpr rid])

/-- `Session::declare_publication` (`src/src.bck/session.rs` lines 276-281). -/
def Session.declare_publication (self : Session) (eng : Engine) (key_expr : PyObj) :
    Except PyErr Unit × List EngineCall :=
  match self.try_ref with
  | .error e => (.error e, [])
  | .ok _ =>
    match zkey_expr_of_pyany key_expr with
    | .error e => (.error e, [])
    | .ok k => (eng.declarePubRes.mapError PyErr.zerror, [.declarePublication k])

/-- `Session::undeclare_publication` (`src/src.bck/session.rs` lines 290-295). -/
def Session.undeclare_publication (self : Session) (eng : Engine) (key_expr : PyObj) :
    Except PyErr Unit × List EngineCall :=
  match self.try_ref with
  | .error e => (.error e, [])
  | .ok _ =>
    match zkey_expr_of_pyany key_expr with
    | .error e => (.error e, [])
    | .ok k => (eng.undeclarePubRes.mapError PyErr.zerror, [.undeclarePublication k])

/-- `Session::subscribe` (`src/src.bck/session.rs` lines 333-375): `try_ref`,
key conversion, then the engine declaration; on success the new `Subscriber`
handle holds its slot.  The callback is bridged separately (see
`bridgeInvoke`). -/
def Session.subscribe (self : Session) (eng : Engine) (key_expr : PyObj) :
    Except PyErr Subscriber × List EngineCall :=
  match self.try_ref with
  | .error e => (.error e, [])
  | .ok _ =>
    match zkey_expr_of_pyany key_expr with
    | .error e => (.error e, [])
    | .ok k =>
      match eng.subscribeRes with
      | .error e => (.error (.zerror e), [.subscribe k])
      | .ok _ => (.ok ⟨some ()⟩, [.subscribe k])

/-- `Session::queryable` (`src/src.bck/session.rs` lines 407-445). -/
def Session.queryable (self : Session) (eng : Engine) (key_expr : PyObj) :
    Except PyErr Queryable × List EngineCall :=
  match self.try_ref with
  | .error e => (.error e, [])
  | .ok _ =>
    match zkey_expr_of_pyany key_expr with
    | .error e => (.error e, [])
    | .ok k =>
      match eng.queryableRes with
      | .error e => (.error (.zerror e), [.declareQueryable k])
      | .ok _ => (.ok ⟨some ()⟩, [.declareQueryable k])

/-- `Session::get` (`src/src.bck/session.rs` lines 483-525): `try_ref`, then
the selector conversion (its own runtime-type dispatch), then the engine
query; the replies are collected into a list. -/
def Session.get (self : Session) (eng : Engine) (selector : PyObj) :
    Except PyErr (List Nat) × List EngineCall :=
  match self.try_ref with
  | .error e => (.error e, [])
  | .ok _ =>
    let selRes : Except PyErr ZSelector :=
      match selector with
      | .vKeyExpr k => .ok (ZSelector.mk k "")
      | .vInt i =>
        if 0 ≤ i ∧ i < 2 ^ 64 then .ok ⟨⟨i.toNat, ""⟩, ""⟩
        else .error (.overflowError "out of range integral type conversion attempted")
      | .vStr s => .ok (ZSelector.fromString s)
      | o =>
        .error (.valueError
          ("Cannot convert type \x27" ++ o.typeName ++ "\x27 to a zenoh Selector"))
    match selRes with
    | .error e => (.error e, [])
    | .ok sel =>
      match eng.getRes with
      | .error e => (.error (.zerror e), [.get sel])
      | .ok replies => (.ok replies, [.get sel])

/-- `Session::key_expr_to_expr` (`src/src.bck/session.rs` lines 537-541);
takes an already-typed `KeyExpr`. -/
def Session.key_expr_to_expr (self : Session) (eng : Engine) (k : KeyExpr) :
    Except PyErr String × List EngineCall :=
  match self.try_ref with
  | .error e => (.error e, [])
  | .ok _ => (eng.keyExprToExprRes.mapError PyErr.zerror, [.keyExprToExpr k.inner])

/-- The full outcome of `Session::close`: the Python-visible result, the
caller's handle afterwards, the shared-ownership state afterwards, and the
engine calls made. -/
structure SessionCloseOut where
  result : Except PyErr Unit
  handle : Session
  world : SharedState
  calls : List EngineCall
deriving Repr

/-- `Session::close` (`src/src.bck/session.rs` lines 51-59): `try_take`
empties the slot first; `Arc::try_unwrap` succeeds only when the taken clone
is the sole reference, in which case the engine `close` runs; otherwise the
taken clone is dropped (the count decreases) and a `ValueError` is raised —
the slot stays empty either way. -/
def Session.close (self : Session) (w : SharedState) (eng : Engine) : SessionCloseOut :=
  match self.s with
  | none => ⟨.error closedSessionErr, self, w, []⟩
  | some _ =>
    if w.strong = 1 then
      ⟨eng.closeRes.mapError PyErr.zerror, ⟨none⟩, ⟨0, true⟩, [.sessionClose]⟩
    else
      ⟨.error (.valueError "Failed to close Session: not owner of the last reference"),
       ⟨none⟩, ⟨w.strong - 1, w.engineClosed⟩, []⟩

/-- `Subscriber::pull` (`src/src.bck/types.rs` lines 1166-1173). -/
def Subscriber.pull (self : Subscriber) (eng : Engine) :
    Except PyErr Unit × List EngineCall :=
  match self.inner with
  | none => (.error (.zerror "the Subscriber was closed"), [])
  | some _ => (eng.pullRes.mapError PyErr.zerror, [.subscriberPull])

/-- `Subscriber::close` (`src/src.bck/types.rs` lines 1176-1182): the slot is
taken before the engine close, so it stays empty regardless of the engine
outcome. -/
def Subscriber.close (self : Subscriber) (eng : Engine) :
    Except PyErr Unit × Subscriber × List EngineCall :=
  match self.inner with
  | none => (.error (.zerror "the Subscriber was already closed"), self, [])
  | some _ => (eng.subCloseRes.mapError PyErr.zerror, ⟨none⟩, [.subscriberClose])

/-- `Queryable::close` (`src/src.bck/types.rs` lines 1244-1251). -/
def Queryable.close (self : Queryable) (eng : Engine) :
    Except PyErr Unit × Queryable × List EngineCall :=
  match self.inner with
  | none => (.error (.zerror "the Queryable was already closed"), self, [])
  | some _ => (eng.qCloseRes.mapError PyErr.zerror, ⟨none⟩, [.queryableClose])

/-- One engine-thread delivery through the callback bridge (the closures in
`Session::subscribe` lines 362-371 and `Session::queryable` lines 425-439):
the GIL is acquired, the caller's callback runs (its own Python-side state
`σ` threaded explicitly), and a raised error is logged (`warn!` + `print`)
and swallowed — nothing propagates back to the engine thread. -/
def bridgeInvoke {σ α : Type} (cb : σ → α → σ × Except String Unit) (st : σ) (ev : α) :
    σ × Option String :=
  match cb st ev with
  | (st2, .ok _) => (st2, none)
  | (st2, .error e) => (st2, some e)

/-- A sequence of engine-thread deliveries to one subscription: each event is
handed to `bridgeInvoke` in order, accumulating the per-event log entries. -/
def bridgeRun {σ α : Type} (cb : σ → α → σ × Except String Unit) (st : σ) :
    List α → σ × List (Option String)
  | [] => (st, [])
  | ev :: rest =>
    let out := bridgeInvoke cb st ev
    let tail := bridgeRun cb out.1 rest
    (tail.1, out.2 :: tail.2)

/-- A callback that records every event it is invoked with before behaving
like `f` — used to observe which deliveries actually reach the callback. -/
def tracingCb {α : Type} (f : α → Except String Unit) :
    List α → α → List α × Except String Unit :=
  fun log ev => (log ++ [ev], f ev)

/-- The `Query` pyclass of the legacy bindings (`src/src.bck/types.rs`):
key selector and raw value selector of the query. -/
structure Query where
  key_selector : ZKeyExpr
  value_selector : String
deriving DecidableEq, Repr

/-- The reply payload of the legacy `Query::reply`: a sample or an error
value (the `Result` FromPyObject union in `src/src.bck/types.rs`). -/
inductive ReplyArg where
  | ok (s : Sample)
  | err (e : Error)
deriving DecidableEq, Repr

/-- `Query::reply` (`src/src.bck/types.rs` lines 1228-1234): the engine's
reply outcome (`self.q.reply(..).res()`, a parameter here) is only logged on
failure (`warn!`); the Python caller always gets a unit return.  The first
component is the caller-visible result, the second the log entry. -/
def Query.reply (_self : Query) (_sample : ReplyArg) (engineReply : Except String Unit) :
    Except PyErr Unit × Option String :=
  match engineReply with
  | .ok _ => (.ok (), none)
  | .error e => (.ok (), some ("Error in Query::reply() : " ++ e))

/-- The `_Query` pyclass of the current bindings (`src/src/queryable.rs`). -/
structure _Query where
  key_selector : ZKeyExpr
  value_selector : String
deriving DecidableEq, Repr

/-- `_Query::reply` (`src/src/queryable.rs` lines 57-62): the engine's reply
outcome is propagated to the Python caller, mapped by `to_pyerr`. -/
def _Query.reply (_self : _Query) (_sample : Sample) (engineReply : Except String Unit) :
    Except PyErr Unit :=
  engineReply.mapError PyErr.zerror

/-- `_Query::decode_value_selector` (`src/src/queryable.rs` lines 33-52),
inner loop: insert the decoded `(key, value)` pairs one by one, failing at
the first key whose map entry is already occupied.  The map is modelled as
the association list `acc` (lookup-equivalent to the `HashMap`). -/
def dvsGo (vs : String) : List (String × String) → List (String × String) →
    Except PyErr (List (String × String))
  | acc, [] => .ok acc
  | acc, (k, v) :: rest =>
    if (acc.lookup k).isSome then
      .error (.zerror ("Detected duplicate key " ++ k ++ " in value selector " ++ vs))
    else
      dvsGo vs (acc ++ [(k, v)]) rest

/-- `_Query::decode_value_selector`: `pairs` is the stream of `(key, value)`
pairs produced by the zenoh crate's `value_selector().decode()` (external);
`vs` is the raw value-selector string interpolated into the error. -/
def decode_value_selector (vs : String) (pairs : List (String × String)) :
    Except PyErr (List (String × String)) :=
  dvsGo vs [] pairs

/-- The log entry the bridge produces from a callback outcome: nothing on
success, the error text on failure. -/
def logOf : Except String Unit → Option String
  | .ok _ => none
  | .error e => some e

/-- A fixed set of trivial external parsers, for concrete witnesses. -/
def codecsTriv : Codecs :=
  { utf8Lossy := fun _ => "", parseProps := fun _ => .ok [],
    parseJson := fun _ => .ok .null, parseI64 := fun _ => .ok 0,
    parseF64 := fun _ => .ok ⟨"0"⟩ }

/-- C9: whenever the two key expressions resolve to different numeric scopes,
`KeyExpr::intersect` returns `false` without consulting the wildcard suffix
matcher `m` at all — even a matcher that would declare every pair of suffixes
overlapping cannot make the result `true`. -/
theorem c9_intersect_scope_mismatch (m : String → String → Bool) (k1 k2 : ZKeyExpr)
    (h : k1.scope ≠ k2.scope) :
    KeyExpr.intersect m (.vKeyExpr k1) (.vKeyExpr k2) = .ok false := by
  simp [KeyExpr.intersect, zkey_expr_of_pyany, ZKeyExpr.as_id_and_suffix, h]

/-- Witness for C9 at a concrete input: scopes 1 and 2 with identical
suffixes, under the everything-intersects matcher. -/
theorem c9_witness :
    (ZKeyExpr.mk 1 "a").scope ≠ (ZKeyExpr.mk 2 "a").scope ∧
    KeyExpr.intersect (fun _ _ => true) (.vKeyExpr ⟨1, "a"⟩) (.vKeyExpr ⟨2, "a"⟩) = .ok false :=
  ⟨by decide, c9_intersect_scope_mismatch (fun _ _ => true) ⟨1, "a"⟩ ⟨2, "a"⟩ (by decide)⟩

/-- C10: the `source_info` getter of `Sample` always returns `some`, never
`None`; an underlying sample without source information (all four fields
unset) still yields `some` of the all-`none` record. -/
theorem c10_source_info_always_some (smp : Sample) :
    Sample.source_info smp ≠ none ∧
    Sample.source_info smp = some smp.s.source_info ∧
    Sample.source_info ⟨{ smp.s with source_info := ZSourceInfo.empty }⟩ =
      some ZSourceInfo.empty := by
  refine ⟨?_, rfl, rfl⟩
  simp [Sample.source_info]

/-- C3: for any caller-supplied callback behaviour `f` (over either event
type: samples for subscribers, queries for queryables), delivering two events
through the bridge invokes the callback on both — a failure on the first
event is turned into a log entry and neither propagates out of the bridge nor
stops the second delivery. -/
theorem c3_callback_bridge_delivery :
    ∀ (α : Type) (f : α → Except String Unit) (e1 e2 : α),
      (bridgeRun (tracingCb f) [] [e1, e2]).1 = [e1, e2] ∧
      (bridgeRun (tracingCb f) [] [e1, e2]).2 = [logOf (f e1), logOf (f e2)] := by
  intro α f e1 e2
  cases h1 : f e1 <;> cases h2 : f e2 <;>
    simp [bridgeRun, bridgeInvoke, tracingCb, logOf, h1, h2]

/-- C4 (amended): the current `_Query::reply` surfaces the engine's reply
outcome to the Python caller (failure becomes a raised `ZError`), and other
engine-submitting operations such as `Session::put` likewise surface engine
failures; the legacy `Query::reply` of the backup bindings instead logs the
engine failure and returns success to the caller. -/
theorem c4_reply_error_surfacing :
    (∀ (q : _Query) (smp : Sample) (r : Except String Unit),
        q.reply smp r = r.mapError PyErr.zerror) ∧
    (∀ (eng : Engine) (e : String) (k : ZKeyExpr) (v : ZValue),
        eng.putRes = .error e →
        Session.put ⟨some ()⟩ eng (.vKeyExpr k) (.vValue v) =
          (.error (.zerror e), [.put k v])) ∧
    (∀ (q : Query) (arg : ReplyArg) (e : String),
        q.reply arg (.error e) = (.ok (), some ("Error in Query::reply() : " ++ e))) ∧
    (∀ (q : Query) (arg : ReplyArg), q.reply arg (.ok ()) = (.ok (), none)) := by
  refine ⟨fun q smp r => ?_, fun eng e k v h => ?_, fun q arg e => rfl, fun q arg => rfl⟩
  · cases r <;> rfl
  · simp [Session.put, Session.try_ref, zkey_expr_of_pyany, zvalue_of_pyany, h,
      Except.mapError]

/-- C4 counterexample: at a concrete engine reply failure, the legacy
`Query::reply` hands the Python caller a success while only logging the
engine error — the `EngineError` is not surfaced to the caller, contrary to
the claim. -/
theorem c4_counterexample :
    (Query.reply ⟨⟨0, ""⟩, ""⟩ (.err ⟨⟨[], ⟨.Empty, ""⟩⟩⟩)
        (.error "engine reply failure")).1 = .ok () ∧
    (Query.reply ⟨⟨0, ""⟩, ""⟩ (.err ⟨⟨[], ⟨.Empty, ""⟩⟩⟩)
        (.error "engine reply failure")).2 =
      some ("Error in Query::reply() : engine reply failure") := by
  constructor <;> rfl

/-- C5 (amended): when a boundary conversion fails at `Sample::new`,
`Error::new` or `KeyExpr::intersect`, the failure is detected synchronously
at that call but, because those three call sites `unwrap` the conversion
result, it is raised as a Rust panic rather than returned as a typed
error. -/
theorem c5_boundary_conversion_panics :
    (∀ (key value : PyObj) (ts : Option Timestamp) (si : Option ZSourceInfo),
        ((∃ e, zkey_expr_of_pyany key = .error e) ∨
         (∃ e, zvalue_of_pyany value = .error e)) →
        Sample.new key value ts si = .panicked) ∧
    (∀ value : PyObj, (∃ e, zvalue_of_pyany value = .error e) →
        Error.new value = .panicked) ∧
    (∀ (m : String → String → Bool) (s1 s2 : PyObj),
        ((∃ e, zkey_expr_of_pyany s1 = .error e) ∨
         (∃ e, zkey_expr_of_pyany s2 = .error e)) →
        KeyExpr.intersect m s1 s2 = .panicked) := by
  refine ⟨fun key value ts si h => ?_, fun value h => ?_, fun m s1 s2 h => ?_⟩
  · cases hk : zkey_expr_of_pyany key with
    | error e => simp [Sample.new, hk]
    | ok k =>
      rcases h with ⟨e, he⟩ | ⟨e, he⟩
      · simp [hk] at he
      · simp [Sample.new, hk, he]
  · obtain ⟨e, he⟩ := h
    simp [Error.new, he]
  · cases hk : zkey_expr_of_pyany s1 with
    | error e => simp [KeyExpr.intersect, hk]
    | ok k =>
      rcases h with ⟨e, he⟩ | ⟨e, he⟩
      · simp [hk] at he
      · simp [KeyExpr.intersect, hk, he]

/-- C5 counterexample: a Python `list` is convertible to neither a key
expression nor a value; `Sample::new`, `Error::new` and `KeyExpr::intersect`
all panic on it instead of returning the typed conversion error the claim
asserts. -/
theorem c5_counterexample :
    Sample.new (.vOther "list") (.vStr "v") none none = .panicked ∧
    Error.new (.vOther "list") = .panicked ∧
    KeyExpr.intersect (fun _ _ => true) (.vOther "list") (.vStr "a") = .panicked := by
  refine ⟨rfl, rfl, rfl⟩

/-- C1 (amended): on a session handle whose engine session is shared
(`2 ≤ strong`), `close` fails with the not-sole-owner `ValueError` and the
engine session is not torn down (no engine call, `engineClosed` unchanged) —
but the caller's handle is consumed: its slot is emptied and its reference is
dropped (`strong` decreases by one).  On a handle holding the last remaining
reference, `close` invokes the engine teardown and returns its outcome. -/
theorem c1_session_close_shared_refs (w : SharedState) (eng : Engine)
    (h : 2 ≤ w.strong) :
    Session.close ⟨some ()⟩ w eng =
      ⟨.error (.valueError "Failed to close Session: not owner of the last reference"),
       ⟨none⟩, ⟨w.strong - 1, w.engineClosed⟩, []⟩ ∧
    (∀ w2 : SharedState, w2.strong = 1 →
      Session.close ⟨some ()⟩ w2 eng =
        ⟨eng.closeRes.mapError PyErr.zerror, ⟨none⟩, ⟨0, true⟩, [.sessionClose]⟩) := by
  constructor
  · unfold Session.close
    rw [if_neg (by omega)]
  · intro w2 h2
    unfold Session.close
    rw [if_pos h2]

/-- Witness for C1 at a concrete two-reference state. -/
theorem c1_witness :
    2 ≤ (SharedState.mk 2 false).strong ∧
    (Session.close ⟨some ()⟩ ⟨2, false⟩ engDefault =
      ⟨.error (.valueError "Failed to close Session: not owner of the last reference"),
       ⟨none⟩, ⟨1, false⟩, []⟩ ∧
     ∀ w2 : SharedState, w2.strong = 1 →
       Session.close ⟨some ()⟩ w2 engDefault =
         ⟨engDefault.closeRes.mapError PyErr.zerror, ⟨none⟩, ⟨0, true⟩, [.sessionClose]⟩) :=
  ⟨by decide, c1_session_close_shared_refs ⟨2, false⟩ engDefault (by decide)⟩

/-- C1 counterexample: in the concrete two-reference state the first `close`
does fail with the not-sole-owner error and leaves the engine session alive,
but it is not side-effect-free: the caller's slot is emptied, so the handle is
no longer usable (`id` on it now fails with the "closed" error), refuting the
claim that the caller's handle is still usable after the failed close. -/
theorem c1_counterexample :
    (Session.close ⟨some ()⟩ ⟨2, false⟩ engDefault).result =
      .error (.valueError "Failed to close Session: not owner of the last reference") ∧
    (Session.close ⟨some ()⟩ ⟨2, false⟩ engDefault).world.engineClosed = false ∧
    (Session.close ⟨some ()⟩ ⟨2, false⟩ engDefault).handle.s = none ∧
    Session.id (Session.close ⟨some ()⟩ ⟨2, false⟩ engDefault).handle engDefault =
      (.error closedSessionErr, []) := by
  refine ⟨rfl, rfl, rfl, rfl⟩

/-- C2: every operation on a handle whose slot has been emptied fails with
its "closed" error and performs no engine interaction (empty call trace);
moreover `close` leaves the slot of any session handle empty, so the emptied
state is exactly the post-`close` state. -/
theorem c2_closed_handle_operations (eng : Engine) (w : SharedState)
    (key value sel : PyObj) (rid : Nat) (k : KeyExpr) :
    (Session.mk none).id eng = (.error closedSessionErr, []) ∧
    (Session.mk none).info eng = (.error closedSessionErr, []) ∧
    (Session.mk none).config = (.error closedSessionErr, []) ∧
    (Session.mk none).put eng key value = (.error closedSessionErr, []) ∧
    (Session.mk none).delete eng key = (.error closedSessionErr, []) ∧
    (Session.mk none).declare_expr eng key = (.error closedSessionErr, []) ∧
    (Session.mk none).undeclare_expr eng rid = (.error closedSessionErr, []) ∧
    (Session.mk none).declare_publication eng key = (.error closedSessionErr, []) ∧
    (Session.mk none).undeclare_publication eng key = (.error closedSessionErr, []) ∧
    (Session.mk none).subscribe eng key = (.error closedSessionErr, []) ∧
    (Session.mk none).queryable eng key = (.error closedSessionErr, []) ∧
    (Session.mk none).get eng sel = (.error closedSessionErr, []) ∧
    (Session.mk none).key_expr_to_expr eng k = (.error closedSessionErr, []) ∧
    Session.close (Session.mk none) w eng =
      ⟨.error closedSessionErr, Session.mk none, w, []⟩ ∧
    Subscriber.pull ⟨none⟩ eng = (.error (.zerror "the Subscriber was closed"), []) ∧
    Subscriber.close ⟨none⟩ eng =
      (.error (.zerror "the Subscriber was already closed"), ⟨none⟩, []) ∧
    Queryable.close ⟨none⟩ eng =
      (.error (.zerror "the Queryable was already closed"), ⟨none⟩, []) ∧
    (∀ s2 : Session, (Session.close s2 w eng).handle.s = none) := by
  refine ⟨rfl, rfl, rfl, rfl, rfl, rfl, rfl, rfl, rfl, rfl, rfl, rfl, rfl, rfl, rfl,
    rfl, rfl, ?_⟩
  intro s2
  rcases s2 with ⟨_ | u⟩
  · rfl
  · by_cases hw : w.strong = 1 <;> simp [Session.close, hw]

/-- C6: on every value whose encoding tag is outside the decodable set,
`decode_value` fails with the `TypeError` whose message carries the
encoding's display form — and `decode_value` never panics, on any encoding
tag and any parser outcomes. -/
theorem c6_decode_unknown_encoding (c : Codecs) (v : ZValue)
    (h : decodableTag v.encoding.prefixTag = false) :
    decode_value c v =
      .err (.typeError
        ("Don\x27t know how to decode Value\x27s payload with encoding: " ++
          v.encoding.display)) ∧
    ∀ (c2 : Codecs) (w : ZValue), decode_value c2 w ≠ PyOutcome.panicked := by
  constructor
  · rcases v with ⟨pl, p, suf⟩
    cases p <;> first
      | rfl
      | simp [decodableTag] at h
  · intro c2 w
    rcases w with ⟨pl, p, suf⟩
    cases p <;>
      simp only [decode_value] <;>
      first
        | (split <;> simp)
        | simp

/-- Witness for C6 at a concrete undecodable tag (`application/sql`). -/
theorem c6_witness :
    decodableTag (ZValue.mk [] ⟨.AppSql, ""⟩).encoding.prefixTag = false ∧
    (decode_value codecsTriv (ZValue.mk [] ⟨.AppSql, ""⟩) =
      .err (.typeError
        ("Don\x27t know how to decode Value\x27s payload with encoding: " ++
          (ZValue.mk [] ⟨.AppSql, ""⟩).encoding.display)) ∧
     ∀ (c2 : Codecs) (w : ZValue), decode_value c2 w ≠ PyOutcome.panicked) :=
  ⟨by decide, c6_decode_unknown_encoding codecsTriv (ZValue.mk [] ⟨.AppSql, ""⟩) (by decide)⟩

/-- C7: `decode_value` dispatches on the encoding tag exactly as specified —
Empty and octet-stream tags return the raw payload, text returns the lossy
UTF-8 decoding, integer and float tags return the parsed 64-bit value or the
parse failure as a `TypeError`, the two JSON tags return the recursively
converted document, and every JSON number is converted by trying `as_u64`,
then `as_i64`, then `as_f64`, in that order. -/
theorem c7_decode_dispatch (c : Codecs) (v : ZValue) :
    ((v.encoding.prefixTag = .Empty ∨ v.encoding.prefixTag = .AppOctetStream) →
      decode_value c v = .ok (.bytes v.payload)) ∧
    (v.encoding.prefixTag = .TextPlain →
      decode_value c v = .ok (.str (c.utf8Lossy v.payload))) ∧
    (v.encoding.prefixTag = .AppInteger →
      decode_value c v =
        match c.parseI64 v.payload with
        | .ok i => .ok (.int i)
        | .error e => .err (.typeError e)) ∧
    (v.encoding.prefixTag = .AppFloat →
      decode_value c v =
        match c.parseF64 v.payload with
        | .ok f => .ok (.float f)
        | .error e => .err (.typeError e)) ∧
    ((v.encoding.prefixTag = .AppJson ∨ v.encoding.prefixTag = .TextJson) →
      decode_value c v =
        match c.parseJson v.payload with
        | .ok j => .ok (jsonIntoPy j)
        | .error e => .err (.typeError e)) ∧
    (∀ n : JNum,
      jnumIntoPy n =
        match n.asU64 with
        | some u => .int (Int.ofNat u)
        | none =>
          match n.asI64 with
          | some i => .int i
          | none => .float n.asF64) := by
  rcases v with ⟨pl, p, suf⟩
  refine ⟨?_, ?_, ?_, ?_, ?_, fun n => rfl⟩
  · rintro (h | h) <;> (cases h; rfl)
  · intro h; cases h; rfl
  · intro h; cases h; rfl
  · intro h; cases h; rfl
  · rintro (h | h) <;> (cases h; rfl)

/-- An association-list lookup succeeds exactly when the key is among the
stored keys (the `HashMap` occupancy test of `decode_value_selector`). -/
theorem lookup_isSome_iff (l : List (String × String)) (k : String) :
    (l.lookup k).isSome = true ↔ k ∈ l.map Prod.fst := by
  induction l with
  | nil => simp [List.lookup]
  | cons kv rest ih =>
    obtain ⟨k1, v1⟩ := kv
    by_cases hk : k = k1
    · subst hk
      simp [List.lookup]
    · have hbeq : (k == k1) = false := beq_eq_false_iff_ne.mpr hk
      simp [List.lookup, hbeq, hk, ih]

/-- Inner induction for C8: starting from a duplicate-free accumulated map,
if the combined key sequence has a duplicate then the insertion loop stops
with the duplicate-key error, naming a key that occurs at least twice. -/
theorem dvsGo_dup_error (vs : String) (pairs : List (String × String)) :
    ∀ acc : List (String × String),
      (acc.map Prod.fst).Nodup →
      ¬ (acc.map Prod.fst ++ pairs.map Prod.fst).Nodup →
      ∃ k, 2 ≤ (acc.map Prod.fst ++ pairs.map Prod.fst).count k ∧
        dvsGo vs acc pairs =
          .error (.zerror ("Detected duplicate key " ++ k ++ " in value selector " ++ vs)) := by
  induction pairs with
  | nil =>
    intro acc hacc hbad
    simp only [List.map_nil, List.append_nil] at hbad
    exact absurd hacc hbad
  | cons kv rest ih =>
    obtain ⟨k, v⟩ := kv
    intro acc hacc hbad
    by_cases hmem : (acc.lookup k).isSome = true
    · refine ⟨k, ?_, by simp [dvsGo, hmem]⟩
      have hin : k ∈ acc.map Prod.fst := (lookup_isSome_iff acc k).mp hmem
      have h1 : 0 < (acc.map Prod.fst).count k := List.count_pos_iff.mpr hin
      have h2 : (acc.map Prod.fst ++ (((k, v) :: rest).map Prod.fst)).count k
          = (acc.map Prod.fst).count k + (((k, v) :: rest).map Prod.fst).count k :=
        List.count_append k _ _
      have h3 : 1 ≤ (((k, v) :: rest).map Prod.fst).count k := by
        simp [List.count_cons]
      omega
    · have hk : k ∉ acc.map Prod.fst := by
        intro hin
        exact hmem ((lookup_isSome_iff acc k).mpr hin)
      have heq : ((acc ++ [(k, v)]).map Prod.fst) ++ rest.map Prod.fst
          = acc.map Prod.fst ++ (((k, v) :: rest).map Prod.fst) := by
        simp
      have hacc2 : ((acc ++ [(k, v)]).map Prod.fst).Nodup := by
        rw [List.map_append]
        refine hacc.append (List.nodup_singleton k) ?_
        intro a ha hb
        simp only [List.map_cons, List.map_nil, List.mem_singleton] at hb
        subst hb
        exact hk ha
      have hbad2 : ¬ (((acc ++ [(k, v)]).map Prod.fst) ++ rest.map Prod.fst).Nodup := by
        rw [heq]
        exact hbad
      obtain ⟨k2, hcount, hres⟩ := ih (acc ++ [(k, v)]) hacc2 hbad2
      refine ⟨k2, ?_, ?_⟩
      · rw [heq] at hcount
        exact hcount
      · simpa [dvsGo, hmem] using hres

/-- C8: a value-selector pair stream that repeats a property key makes
`decode_value_selector` fail with the parse error naming a duplicated key
(one occurring at least twice) and the raw value selector — no value is
silently kept. -/
theorem c8_duplicate_selector_key (vs : String) (pairs : List (String × String))
    (h : ¬ (pairs.map Prod.fst).Nodup) :
    ∃ k, 2 ≤ (pairs.map Prod.fst).count k ∧
      decode_value_selector vs pairs =
        .error (.zerror ("Detected duplicate key " ++ k ++ " in value selector " ++ vs)) := by
  have hmain := dvsGo_dup_error vs pairs [] (by simp) (by simpa using h)
  simpa [decode_value_selector] using hmain

/-- Witness for C8 at the spec's concrete example `(p1=v1;p1=v2)`. -/
theorem c8_witness :
    ¬ ((([("p1", "v1"), ("p1", "v2")] : List (String × String)).map Prod.fst).Nodup) ∧
    ∃ k, 2 ≤ ((([("p1", "v1"), ("p1", "v2")] : List (String × String)).map Prod.fst).count k) ∧
      decode_value_selector "(p1=v1;p1=v2)" [("p1", "v1"), ("p1", "v2")] =
        .error (.zerror ("Detected duplicate key " ++ k ++ " in value selector " ++ "(p1=v1;p1=v2)")) :=
  ⟨by decide, c8_duplicate_selector_key "(p1=v1;p1=v2)" [("p1", "v1"), ("p1", "v2")] (by decide)⟩

end ZenohPy
